import Mathlib

/-!
Verification of the real-time financial event processing core of the
RAG-Finance-Assistant repository.

The definitions below are a shallow embedding of
`src/lib/realtime-processor.ts` (class `TransactionPipeline`:
`detectAnomaly`, `checkBudgetStatus`, `processTransaction`,
`isLikelyTransaction`, `subscribeKafkaSse`) and of the recent-alerts
window kept by `src/contexts/RealtimeContext.tsx` (`onBudgetAlert`).
JavaScript numbers are modelled as real numbers where the code takes a
square root (anomaly statistics) and as rationals elsewhere; machine
floating point rounding is not modelled.  JavaScript strings are modelled
as Lean strings, with string comparison and slicing expressed on the
underlying character lists (the dates handled by the code are plain
ASCII, where JavaScript code-unit order and code-point order agree).
-/

/-! ## String helpers (JavaScript string order, substring search, number rendering) -/

/-- Lexicographic order on character lists, mirroring the JavaScript
relational operators on strings (code-unit comparison). -/
def charListLe : List Char → List Char → Bool
  | [], _ => true
  | _ :: _, [] => false
  | a :: as, b :: bs => if a = b then charListLe as bs else decide (a < b)

/-- JavaScript string comparison `a <= b`. -/
def jsStrLe (a b : String) : Bool := charListLe a.data b.data

/-- Whether `pat` occurs at the head of the second list. -/
def firstMatches : List Char → List Char → Bool
  | [], _ => true
  | _ :: _, [] => false
  | a :: as, b :: bs => a = b && firstMatches as bs

/-- Whether `pat` occurs anywhere in the list. -/
def occursIn (pat : List Char) : List Char → Bool
  | [] => firstMatches pat []
  | c :: rest => firstMatches pat (c :: rest) || occursIn pat rest

/-- Substring test: `pat` occurs somewhere inside `s` (JavaScript `includes`). -/
def strContainsSub (s pat : String) : Bool := occursIn pat.data s.data

/-- Render `n / 10 ^ digits` with exactly `digits` digits after the decimal
point; the integer part keeps at least one digit. -/
def formatScaled (digits : ℕ) (n : ℤ) : String :=
  let sign := if n < 0 then "-" else ""
  let ds0 := (toString n.natAbs).data
  let ds := if ds0.length < digits + 1 then
      List.replicate (digits + 1 - ds0.length) '0' ++ ds0
    else ds0
  if digits = 0 then sign ++ String.mk ds
  else sign ++ String.mk (ds.take (ds.length - digits)) ++ "." ++
    String.mk (ds.drop (ds.length - digits))

/-- JavaScript `x.toFixed(digits)`, on the idealized real value: the value is
scaled by `10 ^ digits`, rounded to the nearest integer, and rendered with
`digits` decimal places. -/
noncomputable def jsToFixed (digits : ℕ) (x : ℝ) : String :=
  formatScaled digits (round (x * 10 ^ digits))

/-- JavaScript default number-to-string conversion, as used by template
interpolation.  Exact on integral values, which are the only values the
claims exercise; non-integral values are approximated by a fixed
six-decimal rendering. -/
noncomputable def jsNumToString (x : ℝ) : String :=
  if ((round x : ℤ) : ℝ) = x then toString (round x) else jsToFixed 6 x

/-! ## Anomaly detection (`TransactionPipeline.detectAnomaly`) -/

/-- Severity levels of `AnomalyResult`. -/
inductive Severity where
  | low
  | medium
  | high
deriving DecidableEq

/-- Result of `detectAnomaly`.  The `transaction` field of the source,
which merely echoes the input event, is not modelled. -/
structure AnomalyResult where
  isAnomaly : Bool
  severity : Severity
  reason : String
deriving DecidableEq

/-- The running sum `amounts.reduce((a, b) => a + b, 0) / amounts.length`
of `detectAnomaly`: the population mean of the fetched amounts. -/
noncomputable def listMean (xs : List ℝ) : ℝ :=
  xs.foldl (· + ·) 0 / (xs.length : ℝ)

/-- The accumulation `amounts.reduce((sq, n) => sq + Math.pow(n - mean, 2), 0)
/ amounts.length` of `detectAnomaly`: the population variance. -/
noncomputable def listVariance (xs : List ℝ) : ℝ :=
  xs.foldl (fun sq n => sq + (n - listMean xs) ^ 2) 0 / (xs.length : ℝ)

/-- `stdDev = Math.sqrt(variance)` of `detectAnomaly`. -/
noncomputable def listStdDev (xs : List ℝ) : ℝ := Real.sqrt (listVariance xs)

/-- `zScore = stdDev > 0 ? (transactionAmount - mean) / stdDev : 0`
of `detectAnomaly`. -/
noncomputable def zScoreOf (recent : List ℝ) (amount : ℝ) : ℝ :=
  if 0 < listStdDev recent then (amount - listMean recent) / listStdDev recent
  else 0

/-- `TransactionPipeline.detectAnomaly`, as a function of the fetched recent
same-owner same-category amounts (the database query returns at most 50 of
them, newest first) and of the incoming transaction amount and category. -/
noncomputable def detectAnomaly (recent : List ℝ) (amount : ℝ)
    (category : String) : AnomalyResult :=
  if recent.length < 10 then
    { isAnomaly := false, severity := Severity.low,
      reason := "Insufficient data for anomaly detection" }
  else
    let mean := listMean recent
    let zScore := zScoreOf recent amount
    if 3 < |zScore| then
      { isAnomaly := true, severity := Severity.high,
        reason := "Transaction amount (₹" ++ jsNumToString amount ++ ") is " ++
          jsToFixed 1 (abs zScore) ++
          " standard deviations from average (₹" ++ jsToFixed 2 mean ++ ")" }
    else if 2 < |zScore| then
      { isAnomaly := true, severity := Severity.medium,
        reason := "Transaction amount (₹" ++ jsNumToString amount ++
          ") is significantly higher than usual for " ++ category }
    else
      { isAnomaly := false, severity := Severity.low, reason := "" }

/-! ## Budget monitoring (`TransactionPipeline.checkBudgetStatus`) -/

/-- Status carried by a `BudgetAlert`. -/
inductive AlertStatus where
  | warning
  | exceeded
deriving DecidableEq

/-- A budget alert, as produced by `checkBudgetStatus`. -/
structure BudgetAlert where
  category : String
  budgeted : ℚ
  spent : ℚ
  percentUsed : ℚ
  status : AlertStatus
deriving DecidableEq

/-- A transaction row, with the fields the processing pipeline reads. -/
structure Tx where
  id : String
  user_id : String
  transaction_date : String
  category : String
  amount : ℚ
deriving DecidableEq

/-- `new Date().toISOString().slice(0, 7)` applied to an ISO timestamp:
the `YYYY-MM` month prefix. -/
def monthPrefix (iso : String) : String := String.mk (iso.data.take 7)

/-- The date window of the month query in `checkBudgetStatus`:
`transaction_date >= month-01 && transaction_date <= month-31`
(string comparison, as the backing store compares ISO date strings). -/
def inBudgetMonth (month : String) (date : String) : Bool :=
  jsStrLe (month ++ "-01") date && jsStrLe date (month ++ "-31")

/-- The spent sum of `checkBudgetStatus`: same-category transactions whose
dates fall in the month of `nowIso` (the wall-clock instant at which the
evaluation runs), amounts summed. -/
def spentFor (nowIso : String) (txs : List Tx) (category : String) : ℚ :=
  ((txs.filter (fun t => t.category == category &&
      inBudgetMonth (monthPrefix nowIso) t.transaction_date)).map
    Tx.amount).foldl (· + ·) 0

/-- `TransactionPipeline.checkBudgetStatus`, as a function of the wall-clock
instant `nowIso`, the fetched active budget (its per-category allocations;
`none` when no active budget row exists, a missing category key reads as 0),
the owner's stored transactions, and the incoming transaction. -/
def checkBudgetStatus (nowIso : String) (budget : Option (List (String × ℚ)))
    (txs : List Tx) (t : Tx) : Option BudgetAlert :=
  match budget with
  | none => none
  | some b =>
    let totalSpent := spentFor nowIso txs t.category
    let budgeted := (List.lookup t.category b).getD 0
    if budgeted = 0 then none
    else
      let percentUsed := totalSpent / budgeted * 100
      if 100 ≤ percentUsed then
        some { category := t.category, budgeted := budgeted,
               spent := totalSpent, percentUsed := percentUsed,
               status := AlertStatus.exceeded }
      else if 80 ≤ percentUsed then
        some { category := t.category, budgeted := budgeted,
               spent := totalSpent, percentUsed := percentUsed,
               status := AlertStatus.warning }
      else none

/-- The spent sum as the specification describes it: same-category
transactions whose dates fall in the budget period derived from the
evaluated transaction's own date.  Written from the spec wording, to be
compared against `spentFor` (which follows the code). -/
def spentForTxDatePeriod (txs : List Tx) (t : Tx) : ℚ :=
  ((txs.filter (fun u => u.category == t.category &&
      inBudgetMonth (monthPrefix t.transaction_date) u.transaction_date)).map
    Tx.amount).foldl (· + ·) 0

/-! ## Consumer recent-alerts window (`RealtimeProvider.onBudgetAlert`) -/

/-- The state update `prev => [alert, ...prev.filter(a => a.category !==
alert.category)].slice(0, 10)` applied by the realtime context when a budget
alert is dispatched. -/
def updateAlerts (prev : List BudgetAlert) (alert : BudgetAlert) :
    List BudgetAlert :=
  (alert :: prev.filter (fun a => a.category != alert.category)).take 10

/-- The recent-alerts window reached after a sequence of dispatched budget
alerts, starting from the empty window. -/
def foldAlerts (alerts : List BudgetAlert) : List BudgetAlert :=
  alerts.foldl updateAlerts []

/-! ## Bridged streaming transport (`subscribeKafkaSse` message handling) -/

/-- A parsed JSON value, as produced by `JSON.parse` on a message of the
bridged streaming endpoint.  Objects are field lists with distinct keys. -/
inductive JsValue where
  | null
  | boolean (b : Bool)
  | number (x : ℚ)
  | str (s : String)
  | object (fields : List (String × JsValue))
  | array (elems : List JsValue)

/-- Field lookup in an object field list. -/
def lookupField : List (String × JsValue) → String → Option JsValue
  | [], _ => none
  | (k, v) :: rest, key => if k = key then some v else lookupField rest key

/-- JavaScript optional member access `v?.[key]`: a field of an object, and
`undefined` (here `none`) on every non-object or missing key. -/
def jsGetField : JsValue → String → Option JsValue
  | JsValue.object fields, key => lookupField fields key
  | _, _ => none

/-- JavaScript nullish coalescing `a ?? b` where `a` is an optional member
access: falls through on `undefined` (a missing member, `none`) and on
`null`. -/
def jsCoalesce (a : Option JsValue) (b : JsValue) : JsValue :=
  match a with
  | some JsValue.null => b
  | some v => v
  | none => b

/-- `raw?.data ?? raw?.transaction ?? raw` of the `onmessage` handler. -/
def candidateOf (raw : JsValue) : JsValue :=
  jsCoalesce (jsGetField raw "data")
    (jsCoalesce (jsGetField raw "transaction") raw)

/-- JavaScript `value && typeof value === 'object'`: objects and arrays are
truthy values of type `object` (the `null` case is already falsy). -/
def isJsObjectLike : JsValue → Bool
  | JsValue.object _ => true
  | JsValue.array _ => true
  | _ => false

/-- `typeof v[key] === 'string'`. -/
def isStringField (v : JsValue) (key : String) : Bool :=
  match jsGetField v key with
  | some (JsValue.str _) => true
  | _ => false

/-- `typeof v[key] === 'number'`. -/
def isNumberField (v : JsValue) (key : String) : Bool :=
  match jsGetField v key with
  | some (JsValue.number _) => true
  | _ => false

/-- `TransactionPipeline.isLikelyTransaction`. -/
def isLikelyTransaction (v : JsValue) : Bool :=
  isJsObjectLike v &&
  isStringField v "id" &&
  isStringField v "user_id" &&
  isStringField v "transaction_date" &&
  isStringField v "category" &&
  (isNumberField v "amount" || isStringField v "amount")

/-- String field extraction used when reading a validated candidate. -/
def getStringField (v : JsValue) (key : String) : Option String :=
  match jsGetField v key with
  | some (JsValue.str s) => some s
  | _ => none

/-- Projection of a validated candidate to a typed transaction, normalizing
a string amount through the number coercion `coerce` (JavaScript
`Number(...)`, kept abstract because its value does not affect the
validation behaviour). -/
def normalizeTx (coerce : String → ℚ) (v : JsValue) : Option Tx := do
  let id ← getStringField v "id"
  let uid ← getStringField v "user_id"
  let date ← getStringField v "transaction_date"
  let cat ← getStringField v "category"
  match jsGetField v "amount" with
  | some (JsValue.number x) => pure ⟨id, uid, date, cat, x⟩
  | some (JsValue.str s) => pure ⟨id, uid, date, cat, coerce s⟩
  | _ => none

/-- The `onmessage` handler of `subscribeKafkaSse`: `parsed` is the result of
`JSON.parse` (`none` when parsing threw), and the returned transaction, when
present, is what `handleIncomingTransaction` delivers to listeners.  Every
other case is a silent drop. -/
def onKafkaMessage (userId : String) (coerce : String → ℚ)
    (parsed : Option JsValue) : Option Tx :=
  match parsed with
  | none => none
  | some raw =>
    let candidate := candidateOf raw
    if isLikelyTransaction candidate then
      match getStringField candidate "user_id" with
      | some uid => if uid = userId then normalizeTx coerce candidate else none
      | none => none
    else none

/-! ## Result dispatch (`TransactionPipeline.processTransaction`) -/

/-- The anomaly events dispatched for one processed transaction:
`processTransaction` emits the computed result exactly when its `isAnomaly`
flag is set. -/
def emittedAnomalies (a : AnomalyResult) : List AnomalyResult :=
  if a.isAnomaly then [a] else []

/-- The budget-alert events dispatched for one processed transaction:
`processTransaction` emits the evaluation result exactly when it is
non-null. -/
def emittedBudgetAlerts : Option BudgetAlert → List BudgetAlert
  | some alert => [alert]
  | none => []

/-! ## Circuit breaker

Modelled from the spec: the `CircuitBreaker` class lives in the backend
processor (`services/backend/backend/processor/main.py`), which is not part
of the source tree; only `docs/PATHWAY_FRAMEWORK.md` and the spec describe
it.  The definitions below follow the spec wording of §4.4 (states CLOSED,
OPEN, HALF_OPEN; CLOSED counts consecutive failures and trips at the
threshold; OPEN fails immediately with a distinct error until the recovery
timeout elapses; the HALF_OPEN trial call closes the breaker on success and
reopens it, restarting the timeout, on failure). -/

/-- Circuit breaker state names. -/
inductive CBState where
  | Closed
  | Open
  | HalfOpen
deriving DecidableEq

/-- Modelled from the spec: per-service-key breaker state
`{state, consecutiveFailures, openedAt}`. -/
structure CircuitState where
  state : CBState
  consecutiveFailures : ℕ
  openedAt : ℕ
deriving DecidableEq

/-- Modelled from the spec: per-service-key configuration. -/
structure CBConfig where
  failureThreshold : ℕ
  recoveryTimeout : ℕ
deriving DecidableEq

/-- Outcome of an invocation of the protected dependency. -/
inductive CallOutcome where
  | success
  | failure
deriving DecidableEq

/-- Result of a call through the breaker: either the dependency was invoked
and produced an outcome, or the breaker rejected the call with
`CircuitOpenError` without invoking it. -/
inductive CallResult where
  | invoked (outcome : CallOutcome)
  | circuitOpenError
deriving DecidableEq

/-- Modelled from the spec: the admission decision taken before invoking the
dependency.  `none` means the call fails immediately with
`CircuitOpenError`; otherwise the state in which the call executes is
returned (the trial call of an `Open` breaker whose recovery timeout has
elapsed executes in `HalfOpen`). -/
def cbBeforeCall (cfg : CBConfig) (now : ℕ) (s : CircuitState) :
    Option CircuitState :=
  match s.state with
  | CBState.Closed => some s
  | CBState.HalfOpen => some s
  | CBState.Open =>
      if cfg.recoveryTimeout ≤ now - s.openedAt then
        some { s with state := CBState.HalfOpen }
      else none

/-- Modelled from the spec: the transition applied once the invoked
dependency reports its outcome.  A success closes the breaker and resets the
consecutive-failure counter; a failure in `HalfOpen` reopens the breaker and
restarts the timeout; a failure in `Closed` increments the counter and trips
the breaker when the counter reaches the threshold. -/
def cbAfterCall (cfg : CBConfig) (now : ℕ) (s : CircuitState)
    (outcome : CallOutcome) : CircuitState :=
  match outcome with
  | CallOutcome.success =>
      { state := CBState.Closed, consecutiveFailures := 0,
        openedAt := s.openedAt }
  | CallOutcome.failure =>
      match s.state with
      | CBState.HalfOpen =>
          { s with state := CBState.Open, openedAt := now }
      | _ =>
          let f := s.consecutiveFailures + 1
          if cfg.failureThreshold ≤ f then
            { state := CBState.Open, consecutiveFailures := f, openedAt := now }
          else
            { state := CBState.Closed, consecutiveFailures := f,
              openedAt := s.openedAt }

/-- Modelled from the spec: one call through the breaker at instant `now`,
where `dep` is the outcome the dependency would produce if invoked. -/
def cbCall (cfg : CBConfig) (now : ℕ) (s : CircuitState) (dep : CallOutcome) :
    CallResult × CircuitState :=
  match cbBeforeCall cfg now s with
  | none => (CallResult.circuitOpenError, s)
  | some s1 => (CallResult.invoked dep, cbAfterCall cfg now s1 dep)

/-- A fresh breaker. -/
def cbInitial : CircuitState :=
  { state := CBState.Closed, consecutiveFailures := 0, openedAt := 0 }

/-- The breaker state after `n` consecutive failing calls, all at instant
`now`. -/
def cbFailTimes (cfg : CBConfig) (now : ℕ) (s : CircuitState) : ℕ → CircuitState
  | 0 => s
  | n + 1 => (cbCall cfg now (cbFailTimes cfg now s n) CallOutcome.failure).2

/-! ## Concrete witness data -/

/-- Ten historical amounts with population mean 100 and standard deviation 4. -/
def sampleR : List ℝ := [96, 96, 96, 96, 96, 104, 104, 104, 104, 104]

/-- A stored January groceries transaction. -/
def txJan950 : Tx := ⟨"t0", "u1", "2025-01-10", "groceries", 950⟩

/-- A late-arriving incoming January groceries transaction. -/
def txJan100 : Tx := ⟨"t1", "u1", "2025-01-15", "groceries", 100⟩

/-- A stored March groceries transaction. -/
def txMar850 : Tx := ⟨"t2", "u1", "2025-03-10", "groceries", 850⟩

/-- An incoming March groceries transaction. -/
def txMar50 : Tx := ⟨"t3", "u1", "2025-03-15", "groceries", 50⟩

/-- A groceries warning alert at 85 percent. -/
def alertG85 : BudgetAlert :=
  { category := "groceries", budgeted := 1000, spent := 850,
    percentUsed := 85, status := AlertStatus.warning }

/-- A groceries exceeded alert at 120 percent. -/
def alertG120 : BudgetAlert :=
  { category := "groceries", budgeted := 1000, spent := 1200,
    percentUsed := 120, status := AlertStatus.exceeded }

/-- A transport warning alert, for exercising the window bound. -/
def alertT90 : BudgetAlert :=
  { category := "transport", budgeted := 500, spent := 450,
    percentUsed := 90, status := AlertStatus.warning }

/-- A well-formed transaction envelope for the bridged transport. -/
def kTxObject : JsValue :=
  JsValue.object [("id", JsValue.str "t1"), ("user_id", JsValue.str "u1"),
    ("transaction_date", JsValue.str "2025-01-01"),
    ("category", JsValue.str "food"), ("amount", JsValue.str "42")]

/-- An envelope wrapping the transaction under a `data` field. -/
def kEnvelope : JsValue := JsValue.object [("data", kTxObject)]

/-! ## Helper lemmas -/

theorem occursIn_append (pat a b : List Char) (h : occursIn pat b = true) :
    occursIn pat (a ++ b) = true := by
  induction a with
  | nil => simpa using h
  | cons c cs ih => simp [occursIn, ih]

theorem firstMatches_self (l rest : List Char) :
    firstMatches l (l ++ rest) = true := by
  induction l with
  | nil => rfl
  | cons c cs ih => simp [firstMatches, ih]

theorem occursIn_here (pat rest : List Char) :
    occursIn pat (pat ++ rest) = true := by
  cases pat with
  | nil =>
      cases rest with
      | nil => rfl
      | cons c cs => simp [occursIn, firstMatches]
  | cons c cs =>
      simp only [occursIn, Bool.or_eq_true]
      refine Or.inl ?_
      have h := firstMatches_self (c :: cs) rest
      simpa using h

theorem jsToFixed_intScaled (digits : ℕ) (x : ℝ) (n : ℤ)
    (h : x * 10 ^ digits = (n : ℝ)) :
    jsToFixed digits x = formatScaled digits n := by
  rw [jsToFixed, h, round_intCast]

theorem jsNumToString_intCast (n : ℤ) : jsNumToString (n : ℝ) = toString n := by
  have h : ((round ((n : ℤ) : ℝ) : ℤ) : ℝ) = ((n : ℤ) : ℝ) := by
    rw [round_intCast]
  rw [jsNumToString, if_pos h, round_intCast]

theorem sample_length : sampleR.length = 10 := by
  simp [sampleR]

theorem sample_mean : listMean sampleR = 100 := by
  norm_num [listMean, sampleR, List.foldl]

theorem sample_variance : listVariance sampleR = 16 := by
  simp only [listVariance, sample_mean]
  norm_num [sampleR, List.foldl]

theorem sample_stdDev : listStdDev sampleR = 4 := by
  rw [listStdDev, sample_variance, show (16 : ℝ) = 4 ^ 2 by norm_num,
    Real.sqrt_sq (by norm_num : (0 : ℝ) ≤ 4)]

theorem sample_stdDev_pos : 0 < listStdDev sampleR := by
  rw [sample_stdDev]; norm_num

theorem sample_z (a : ℝ) : zScoreOf sampleR a = (a - 100) / 4 := by
  rw [zScoreOf, if_pos sample_stdDev_pos, sample_stdDev, sample_mean]

/-! ## Claim C1 -/

/-- Claim C1: for every incoming transaction event with at least 10
historical same-owner same-category samples, `detectAnomaly` computes the
population mean and population standard deviation over the fetched recent
amounts (at most 50), sets the z-score to `(amount - mean) / stdDev` when
`stdDev > 0` and to 0 when `stdDev = 0`, and classifies: `|zScore| > 3`
yields an anomaly of high severity; `2 < |zScore| <= 3` yields an anomaly
of medium severity; otherwise the result is not an anomaly. -/
theorem detectAnomaly_zscore_classification (recent : List ℝ) (amount : ℝ)
    (category : String) (h10 : 10 ≤ recent.length)
    (h50 : recent.length ≤ 50) :
    (listStdDev recent = 0 → zScoreOf recent amount = 0) ∧
    (0 < listStdDev recent →
      zScoreOf recent amount =
        (amount - listMean recent) / listStdDev recent) ∧
    (3 < |zScoreOf recent amount| →
      (detectAnomaly recent amount category).isAnomaly = true ∧
      (detectAnomaly recent amount category).severity = Severity.high) ∧
    (2 < |zScoreOf recent amount| ∧ |zScoreOf recent amount| ≤ 3 →
      (detectAnomaly recent amount category).isAnomaly = true ∧
      (detectAnomaly recent amount category).severity = Severity.medium) ∧
    (|zScoreOf recent amount| ≤ 2 →
      (detectAnomaly recent amount category).isAnomaly = false) := by
  have hnot : ¬ recent.length < 10 := by omega
  refine ⟨?_, ?_, ?_, ?_, ?_⟩
  · intro h
    rw [zScoreOf, h, if_neg (lt_irrefl 0)]
  · intro h
    rw [zScoreOf, if_pos h]
  · intro h3
    simp only [detectAnomaly, if_neg hnot, if_pos h3]
    exact ⟨trivial, trivial⟩
  · rintro ⟨h2, h3⟩
    have hn3 : ¬ 3 < |zScoreOf recent amount| := not_lt.mpr h3
    simp only [detectAnomaly, if_neg hnot, if_neg hn3, if_pos h2]
    exact ⟨trivial, trivial⟩
  · intro h2
    have hn3 : ¬ 3 < |zScoreOf recent amount| := by
      push_neg
      linarith
    have hn2 : ¬ 2 < |zScoreOf recent amount| := not_lt.mpr h2
    simp only [detectAnomaly, if_neg hnot, if_neg hn3, if_neg hn2]

/-- Witness for C1: on the concrete ten-sample history with mean 100 and
standard deviation 4, an incoming amount of 120 has z-score 5 and is
classified as a high-severity anomaly. -/
theorem detectAnomaly_zscore_classification_witness :
    (detectAnomaly sampleR 120 "transport").isAnomaly = true ∧
    (detectAnomaly sampleR 120 "transport").severity = Severity.high := by
  have hz : 3 < |zScoreOf sampleR 120| := by
    rw [sample_z]
    rw [show ((120 : ℝ) - 100) / 4 = 5 by norm_num]
    rw [abs_of_nonneg (by norm_num : (0 : ℝ) ≤ 5)]
    norm_num
  exact (detectAnomaly_zscore_classification sampleR 120 "transport"
    (by rw [sample_length]) (by rw [sample_length]; norm_num)).2.2.1 hz

/-! ## Claim C2 -/

/-- Claim C2: for every incoming transaction event whose owner has fewer
than 10 historical transactions in the same category, `detectAnomaly`
returns no anomaly with low severity and the explicit insufficient-data
reason, regardless of the transaction amount. -/
theorem detectAnomaly_insufficient_data (recent : List ℝ) (amount : ℝ)
    (category : String) (h : recent.length < 10) :
    detectAnomaly recent amount category =
      { isAnomaly := false, severity := Severity.low,
        reason := "Insufficient data for anomaly detection" } := by
  rw [detectAnomaly, if_pos h]

/-- Witness for C2: three historical samples are below the floor, so even an
amount of 1000000 is not flagged. -/
theorem detectAnomaly_insufficient_data_witness :
    detectAnomaly [5, 5, 5] 1000000 "misc" =
      { isAnomaly := false, severity := Severity.low,
        reason := "Insufficient data for anomaly detection" } :=
  detectAnomaly_insufficient_data [5, 5, 5] 1000000 "misc" (by simp)

/-! ## Claim C3 -/

/-- Claim C3: for every budget evaluation of a transaction event: if the
owner has no active budget or the category's budgeted amount is zero, no
alert is returned; otherwise with `percentUsed = spent / budgeted * 100`,
`percentUsed >= 100` yields exactly one alert with status exceeded,
`80 <= percentUsed < 100` yields exactly one alert with status warning, and
`percentUsed < 80` yields no alert.  The result type is a single optional
alert, so no evaluation can ever produce two alerts. -/
theorem checkBudgetStatus_thresholds (nowIso : String)
    (budget : Option (List (String × ℚ))) (txs : List Tx) (t : Tx) :
    (budget = none → checkBudgetStatus nowIso budget txs t = none) ∧
    (∀ b, budget = some b →
      ((List.lookup t.category b).getD 0 = 0 →
        checkBudgetStatus nowIso budget txs t = none) ∧
      ((List.lookup t.category b).getD 0 ≠ 0 →
        (100 ≤ spentFor nowIso txs t.category /
            (List.lookup t.category b).getD 0 * 100 →
          checkBudgetStatus nowIso budget txs t =
            some { category := t.category,
                   budgeted := (List.lookup t.category b).getD 0,
                   spent := spentFor nowIso txs t.category,
                   percentUsed := spentFor nowIso txs t.category /
                     (List.lookup t.category b).getD 0 * 100,
                   status := AlertStatus.exceeded }) ∧
        (80 ≤ spentFor nowIso txs t.category /
            (List.lookup t.category b).getD 0 * 100 ∧
         spentFor nowIso txs t.category /
            (List.lookup t.category b).getD 0 * 100 < 100 →
          checkBudgetStatus nowIso budget txs t =
            some { category := t.category,
                   budgeted := (List.lookup t.category b).getD 0,
                   spent := spentFor nowIso txs t.category,
                   percentUsed := spentFor nowIso txs t.category /
                     (List.lookup t.category b).getD 0 * 100,
                   status := AlertStatus.warning }) ∧
        (spentFor nowIso txs t.category /
            (List.lookup t.category b).getD 0 * 100 < 80 →
          checkBudgetStatus nowIso budget txs t = none))) := by
  constructor
  · rintro rfl
    rfl
  · rintro b rfl
    simp only [checkBudgetStatus]
    generalize spentFor nowIso txs t.category = P
    generalize (List.lookup t.category b).getD 0 = B
    refine ⟨?_, ?_⟩
    · intro hb
      rw [if_pos hb]
    · intro hb
      rw [if_neg hb]
      refine ⟨?_, ?_, ?_⟩
      · intro h100
        rw [if_pos h100]
      · rintro ⟨h80, h100⟩
        rw [if_neg (not_le.mpr h100), if_pos h80]
      · intro h80
        have hn100 : ¬ 100 ≤ P / B * 100 := not_le.mpr (by linarith)
        rw [if_neg hn100, if_neg (not_le.mpr h80)]

/-- Witness for C3: an active budget of 1000 for groceries, 850 already
spent this month, and an incoming groceries transaction produce exactly one
warning alert at 85 percent. -/
theorem checkBudgetStatus_thresholds_witness :
    checkBudgetStatus "2025-03-15T00:00:00.000Z" (some [("groceries", 1000)])
        [txMar850] txMar50 =
      some { category := "groceries", budgeted := 1000, spent := 850,
             percentUsed := 85, status := AlertStatus.warning } := by
  have hb : (List.lookup txMar50.category
      [("groceries", (1000 : ℚ))]).getD 0 = 1000 := by decide
  have hfil : ([txMar850].filter (fun u => u.category == txMar50.category &&
      inBudgetMonth (monthPrefix "2025-03-15T00:00:00.000Z")
        u.transaction_date)) = [txMar850] := by decide
  have hs : spentFor "2025-03-15T00:00:00.000Z" [txMar850]
      txMar50.category = 850 := by
    simp only [spentFor]
    rw [hfil]
    norm_num [txMar850, List.foldl]
  have h := ((checkBudgetStatus_thresholds "2025-03-15T00:00:00.000Z"
      (some [("groceries", 1000)]) [txMar850] txMar50).2
    [("groceries", 1000)] rfl).2 (by rw [hb]; norm_num)
  have hcond : 80 ≤ spentFor "2025-03-15T00:00:00.000Z" [txMar850]
        txMar50.category /
        (List.lookup txMar50.category [("groceries", (1000 : ℚ))]).getD 0 *
        100 ∧
      spentFor "2025-03-15T00:00:00.000Z" [txMar850] txMar50.category /
        (List.lookup txMar50.category [("groceries", (1000 : ℚ))]).getD 0 *
        100 < 100 := by
    rw [hs, hb]
    norm_num
  have hres := h.2.1 hcond
  rw [hres, hb, hs]
  norm_num [txMar50]

/-! ## Claim C4 -/

/-- Counterexample to C4 as stated: at wall-clock instant 2025-03-10, a
late-arriving January transaction is evaluated against the March window.
The spent sum the code computes is 0 (no March transactions), while the sum
over the period derived from the transaction's own date is 1050; with a
groceries budget of 1000 the code therefore returns no alert, although the
January period is over its budget. -/
theorem checkBudgetStatus_period_counterexample :
    spentFor "2025-03-10T00:00:00.000Z" [txJan950, txJan100]
        txJan100.category = 0 ∧
    spentForTxDatePeriod [txJan950, txJan100] txJan100 = 1050 ∧
    checkBudgetStatus "2025-03-10T00:00:00.000Z" (some [("groceries", 1000)])
        [txJan950, txJan100] txJan100 = none ∧
    spentFor "2025-03-10T00:00:00.000Z" [txJan950, txJan100]
        txJan100.category ≠
      spentForTxDatePeriod [txJan950, txJan100] txJan100 := by
  have hs0 : spentFor "2025-03-10T00:00:00.000Z" [txJan950, txJan100]
      txJan100.category = 0 := by decide
  have hspec : spentForTxDatePeriod [txJan950, txJan100] txJan100 = 1050 := by
    have hfil : ([txJan950, txJan100].filter
        (fun u => u.category == txJan100.category &&
          inBudgetMonth (monthPrefix txJan100.transaction_date)
            u.transaction_date)) = [txJan950, txJan100] := by decide
    simp only [spentForTxDatePeriod]
    rw [hfil]
    norm_num [txJan950, txJan100, List.foldl]
  have hb : (List.lookup txJan100.category
      [("groceries", (1000 : ℚ))]).getD 0 = 1000 := by decide
  refine ⟨hs0, hspec, ?_, ?_⟩
  · simp only [checkBudgetStatus, hs0, hb]
    norm_num
  · rw [hs0, hspec]
    norm_num

/-- Claim C4 (amended): the spent sum of every budget evaluation is computed
over same-category transactions whose dates fall in the month of the
wall-clock instant at which the evaluation runs, not in the period derived
from the evaluated transaction's date; the evaluated transaction's own date
does not influence the result at all, so a late-arriving historical
transaction is evaluated against the current wall-clock month rather than
the period its own date belongs to. -/
theorem checkBudgetStatus_period_from_now (nowIso : String)
    (budget : Option (List (String × ℚ))) (txs : List Tx) (t : Tx) :
    (∀ alert, checkBudgetStatus nowIso budget txs t = some alert →
      alert.spent = spentFor nowIso txs t.category) ∧
    (∀ d, checkBudgetStatus nowIso budget txs
        { t with transaction_date := d } =
      checkBudgetStatus nowIso budget txs t) := by
  constructor
  · intro alert h
    cases budget with
    | none => exact absurd h (by simp [checkBudgetStatus])
    | some b =>
        simp only [checkBudgetStatus] at h
        by_cases hb : (List.lookup t.category b).getD 0 = 0
        · rw [if_pos hb] at h
          exact absurd h (by simp)
        · rw [if_neg hb] at h
          by_cases h100 : 100 ≤ spentFor nowIso txs t.category /
              (List.lookup t.category b).getD 0 * 100
          · rw [if_pos h100] at h
            have := Option.some.inj h
            rw [← this]
          · rw [if_neg h100] at h
            by_cases h80 : 80 ≤ spentFor nowIso txs t.category /
                (List.lookup t.category b).getD 0 * 100
            · rw [if_pos h80] at h
              have := Option.some.inj h
              rw [← this]
            · rw [if_neg h80] at h
              exact absurd h (by simp)
  · intro d
    rfl

/-- Witness for the amended C4: in the concrete March scenario the returned
alert's spent field is the March wall-clock-month sum, and moving the
incoming transaction's date to another year does not change the
evaluation. -/
theorem checkBudgetStatus_period_from_now_witness :
    ({ category := "groceries", budgeted := 1000, spent := 850,
       percentUsed := 85, status := AlertStatus.warning } : BudgetAlert).spent =
      spentFor "2025-03-15T00:00:00.000Z" [txMar850] txMar50.category ∧
    checkBudgetStatus "2025-03-15T00:00:00.000Z" (some [("groceries", 1000)])
        [txMar850] { txMar50 with transaction_date := "2024-07-01" } =
      checkBudgetStatus "2025-03-15T00:00:00.000Z" (some [("groceries", 1000)])
        [txMar850] txMar50 := by
  have h := checkBudgetStatus_period_from_now "2025-03-15T00:00:00.000Z"
    (some [("groceries", 1000)]) [txMar850] txMar50
  refine ⟨h.1 _ ?_, h.2 "2024-07-01"⟩
  have hb : (List.lookup txMar50.category
      [("groceries", (1000 : ℚ))]).getD 0 = 1000 := by decide
  have hfil : ([txMar850].filter (fun u => u.category == txMar50.category &&
      inBudgetMonth (monthPrefix "2025-03-15T00:00:00.000Z")
        u.transaction_date)) = [txMar850] := by decide
  have hs : spentFor "2025-03-15T00:00:00.000Z" [txMar850]
      txMar50.category = 850 := by
    simp only [spentFor]
    rw [hfil]
    norm_num [txMar850, List.foldl]
  simp only [checkBudgetStatus, hs, hb]
  norm_num [txMar50]

/-! ## Claim C5 -/

theorem updateAlerts_len (prev : List BudgetAlert) (alert : BudgetAlert) :
    (updateAlerts prev alert).length ≤ 10 :=
  List.length_take_le _ _

theorem foldAlerts_go_len (alerts acc : List BudgetAlert)
    (h : acc.length ≤ 10) :
    (alerts.foldl updateAlerts acc).length ≤ 10 := by
  induction alerts generalizing acc with
  | nil => simpa using h
  | cons a rest ih =>
      simp only [List.foldl]
      exact ih _ (updateAlerts_len acc a)

theorem updateAlerts_count (prev : List BudgetAlert) (alert : BudgetAlert)
    (c : String)
    (h : (prev.filter (fun a => a.category == c)).length ≤ 1) :
    ((updateAlerts prev alert).filter
      (fun a => a.category == c)).length ≤ 1 := by
  have hsub : List.Sublist
      ((updateAlerts prev alert).filter (fun a => a.category == c))
      ((alert :: prev.filter (fun a => a.category != alert.category)).filter
        (fun a => a.category == c)) :=
    (List.take_sublist 10 _).filter _
  have hlen := hsub.length_le
  by_cases hc : alert.category = c
  · have hnil : ((prev.filter
        (fun a => a.category != alert.category)).filter
          (fun a => a.category == c)) = [] := by
      simp only [List.filter_eq_nil_iff]
      intro a ha
      have hmem := List.of_mem_filter ha
      simp only [bne_iff_ne, ne_eq] at hmem
      simp only [beq_iff_eq]
      intro hac
      exact hmem (by rw [hac, hc])
    have hcons : ((alert :: prev.filter
        (fun a => a.category != alert.category)).filter
          (fun a => a.category == c)) = [alert] := by
      rw [List.filter_cons_of_pos (by simp [hc]), hnil]
    rw [hcons] at hlen
    simpa using hlen
  · have hcons : ((alert :: prev.filter
        (fun a => a.category != alert.category)).filter
          (fun a => a.category == c)) =
        ((prev.filter (fun a => a.category != alert.category)).filter
          (fun a => a.category == c)) := by
      rw [List.filter_cons_of_neg (by simp [hc])]
    rw [hcons] at hlen
    have hsub2 : List.Sublist
        ((prev.filter (fun a => a.category != alert.category)).filter
          (fun a => a.category == c))
        (prev.filter (fun a => a.category == c)) :=
      (List.filter_sublist prev).filter _
    exact le_trans hlen (le_trans hsub2.length_le h)

theorem foldAlerts_go_count (alerts acc : List BudgetAlert)
    (h : ∀ c, (acc.filter (fun a => a.category == c)).length ≤ 1) :
    ∀ c, ((alerts.foldl updateAlerts acc).filter
      (fun a => a.category == c)).length ≤ 1 := by
  induction alerts generalizing acc with
  | nil => simpa using h
  | cons a rest ih =>
      simp only [List.foldl]
      exact ih _ (fun c => updateAlerts_count _ _ _ (h c))

theorem updateAlerts_replaces (prev : List BudgetAlert)
    (alert : BudgetAlert) :
    (updateAlerts prev alert).filter
      (fun a => a.category == alert.category) = [alert] := by
  have h9 : (alert :: prev.filter
      (fun a => a.category != alert.category)).take 10 =
      alert :: (prev.filter (fun a => a.category != alert.category)).take 9 :=
    List.take_succ_cons
  have hnil : (((prev.filter
      (fun a => a.category != alert.category)).take 9).filter
        (fun a => a.category == alert.category)) = [] := by
    simp only [List.filter_eq_nil_iff]
    intro a ha
    have hmem : a ∈ prev.filter (fun a => a.category != alert.category) :=
      List.take_subset _ _ ha
    have hne := List.of_mem_filter hmem
    simp only [bne_iff_ne, ne_eq] at hne
    simpa using hne
  rw [updateAlerts, h9, List.filter_cons_of_pos (by simp), hnil]

/-- Claim C5: the consumer recent-alerts window holds at most 10 alerts and
at most one alert per category; appending a new alert for a category removes
any previous alert of that category (the newest replaces, it is not
appended); dispatching groceries alerts at 85 percent and then at 120
percent leaves exactly one groceries entry, with status exceeded. -/
theorem recentAlerts_window_dedup :
    (∀ alerts : List BudgetAlert, (foldAlerts alerts).length ≤ 10) ∧
    (∀ alerts : List BudgetAlert, ∀ c,
      ((foldAlerts alerts).filter (fun a => a.category == c)).length ≤ 1) ∧
    (∀ prev alert,
      (updateAlerts prev alert).filter
        (fun a => a.category == alert.category) = [alert]) ∧
    foldAlerts [alertG85, alertG120] = [alertG120] ∧
    alertG120.category = "groceries" ∧
    alertG120.status = AlertStatus.exceeded := by
  refine ⟨?_, ?_, updateAlerts_replaces, ?_, rfl, rfl⟩
  · intro alerts
    exact foldAlerts_go_len alerts [] (by simp)
  · intro alerts
    exact foldAlerts_go_count alerts [] (by simp)
  · decide

/-! ## Claim C6 -/

theorem normalizeTx_fields (coerce : String → ℚ) (v : JsValue) (t : Tx)
    (h : normalizeTx coerce v = some t) :
    getStringField v "user_id" = some t.user_id ∧
    (jsGetField v "amount" = some (JsValue.number t.amount) ∨
     ∃ s, jsGetField v "amount" = some (JsValue.str s) ∧
       t.amount = coerce s) := by
  cases hid : getStringField v "id" with
  | none => simp [normalizeTx, hid] at h
  | some id =>
    cases huid : getStringField v "user_id" with
    | none => simp [normalizeTx, hid, huid] at h
    | some uid =>
      cases hdate : getStringField v "transaction_date" with
      | none => simp [normalizeTx, hid, huid, hdate] at h
      | some date =>
        cases hcat : getStringField v "category" with
        | none => simp [normalizeTx, hid, huid, hdate, hcat] at h
        | some cat =>
          cases hamt : jsGetField v "amount" with
          | none => simp [normalizeTx, hid, huid, hdate, hcat, hamt] at h
          | some av =>
            cases av with
            | number x =>
                simp only [normalizeTx, hid, huid, hdate, hcat, hamt,
                  Option.bind_eq_bind, Option.some_bind, Option.pure_def,
                  Option.some.injEq] at h
                subst h
                exact ⟨rfl, Or.inl rfl⟩
            | str s =>
                simp only [normalizeTx, hid, huid, hdate, hcat, hamt,
                  Option.bind_eq_bind, Option.some_bind, Option.pure_def,
                  Option.some.injEq] at h
                subst h
                exact ⟨rfl, Or.inr ⟨s, rfl, rfl⟩⟩
            | null => simp [normalizeTx, hid, huid, hdate, hcat, hamt] at h
            | boolean b =>
                simp [normalizeTx, hid, huid, hdate, hcat, hamt] at h
            | object fields =>
                simp [normalizeTx, hid, huid, hdate, hcat, hamt] at h
            | array elems =>
                simp [normalizeTx, hid, huid, hdate, hcat, hamt] at h

theorem onKafkaMessage_some (userId : String) (coerce : String → ℚ)
    (parsed : Option JsValue) (t : Tx)
    (h : onKafkaMessage userId coerce parsed = some t) :
    ∃ raw, parsed = some raw ∧
      isLikelyTransaction (candidateOf raw) = true ∧
      getStringField (candidateOf raw) "user_id" = some userId ∧
      normalizeTx coerce (candidateOf raw) = some t := by
  cases parsed with
  | none => exact absurd h (by simp [onKafkaMessage])
  | some raw =>
    refine ⟨raw, rfl, ?_⟩
    simp only [onKafkaMessage] at h
    by_cases hL : isLikelyTransaction (candidateOf raw) = true
    · rw [if_pos hL] at h
      cases hu : getStringField (candidateOf raw) "user_id" with
      | none =>
          simp only [hu] at h
          exact absurd h (by simp)
      | some uid =>
          simp only [hu] at h
          by_cases he : uid = userId
          · subst he
            rw [if_pos rfl] at h
            exact ⟨hL, rfl, h⟩
          · rw [if_neg he] at h
            exact absurd h (by simp)
    · rw [if_neg hL] at h
      exact absurd h (by simp)

/-- Claim C6: a message received on the bridged streaming transport is
delivered to listeners only if its candidate payload has string fields
`id`, `user_id`, `transaction_date` and `category` and an amount that is a
number or a string (a string amount being coerced before delivery), and
only if its `user_id` equals the pipeline's owner id; a message that fails
to parse, fails validation, or belongs to another owner is silently
dropped. -/
theorem onKafkaMessage_validation (userId : String) (coerce : String → ℚ)
    (parsed : Option JsValue) :
    (parsed = none → onKafkaMessage userId coerce parsed = none) ∧
    (∀ raw, parsed = some raw →
      isLikelyTransaction (candidateOf raw) = false →
      onKafkaMessage userId coerce parsed = none) ∧
    (∀ raw uid, parsed = some raw →
      getStringField (candidateOf raw) "user_id" = some uid →
      uid ≠ userId →
      onKafkaMessage userId coerce parsed = none) ∧
    (∀ t, onKafkaMessage userId coerce parsed = some t →
      ∃ raw, parsed = some raw ∧
        isLikelyTransaction (candidateOf raw) = true ∧
        isStringField (candidateOf raw) "id" = true ∧
        isStringField (candidateOf raw) "user_id" = true ∧
        isStringField (candidateOf raw) "transaction_date" = true ∧
        isStringField (candidateOf raw) "category" = true ∧
        (isNumberField (candidateOf raw) "amount" = true ∨
         isStringField (candidateOf raw) "amount" = true) ∧
        getStringField (candidateOf raw) "user_id" = some userId ∧
        t.user_id = userId ∧
        (jsGetField (candidateOf raw) "amount" =
            some (JsValue.number t.amount) ∨
         ∃ s, jsGetField (candidateOf raw) "amount" =
            some (JsValue.str s) ∧ t.amount = coerce s)) := by
  refine ⟨?_, ?_, ?_, ?_⟩
  · rintro rfl
    rfl
  · rintro raw rfl hL
    simp only [onKafkaMessage]
    rw [if_neg (by simp [hL])]
  · rintro raw uid rfl hu hne
    simp only [onKafkaMessage]
    by_cases hL : isLikelyTransaction (candidateOf raw) = true
    · rw [if_pos hL]
      simp only [hu]
      rw [if_neg hne]
    · rw [if_neg hL]
  · intro t h
    obtain ⟨raw, hp, hL, hu, hn⟩ := onKafkaMessage_some userId coerce parsed t h
    have hf := normalizeTx_fields coerce (candidateOf raw) t hn
    have hparts := hL
    simp only [isLikelyTransaction, Bool.and_eq_true] at hparts
    obtain ⟨⟨⟨⟨⟨hobj, hid⟩, huid2⟩, hdate⟩, hcat⟩, hamt⟩ := hparts
    exact ⟨raw, hp, hL, hid, huid2, hdate, hcat, by simpa using hamt, hu,
      Option.some.inj (hf.1.symm.trans hu), hf.2⟩

/-- Witness for C6: a well-formed envelope carrying the transaction under a
`data` field, with a string amount, is delivered to the matching owner with
the amount coerced. -/
theorem onKafkaMessage_validation_witness :
    ∃ raw, (some kEnvelope : Option JsValue) = some raw ∧
      isLikelyTransaction (candidateOf raw) = true ∧
      isStringField (candidateOf raw) "id" = true ∧
      isStringField (candidateOf raw) "user_id" = true ∧
      isStringField (candidateOf raw) "transaction_date" = true ∧
      isStringField (candidateOf raw) "category" = true ∧
      (isNumberField (candidateOf raw) "amount" = true ∨
       isStringField (candidateOf raw) "amount" = true) ∧
      getStringField (candidateOf raw) "user_id" = some "u1" ∧
      (⟨"t1", "u1", "2025-01-01", "food", (42 : ℚ)⟩ : Tx).user_id = "u1" ∧
      (jsGetField (candidateOf raw) "amount" =
          some (JsValue.number
            (⟨"t1", "u1", "2025-01-01", "food", (42 : ℚ)⟩ : Tx).amount) ∨
       ∃ s, jsGetField (candidateOf raw) "amount" =
          some (JsValue.str s) ∧
          (⟨"t1", "u1", "2025-01-01", "food", (42 : ℚ)⟩ : Tx).amount =
            (fun _ => (42 : ℚ)) s) :=
  (onKafkaMessage_validation "u1" (fun _ => (42 : ℚ))
      (some kEnvelope)).2.2.2
    ⟨"t1", "u1", "2025-01-01", "food", 42⟩ (by decide)

/-! ## Claim C7 -/

/-- Counterexample to C7 as stated: on the fixed ten-sample history with
mean 100 and positive standard deviation 4, the amounts 90 < 100 give
`|zScore| = 2.5` and `|zScore| = 0` respectively, so `|zScore|` is not
monotonically increasing in the incoming amount (it decreases as the amount
rises towards the mean from below). -/
theorem zscore_monotone_counterexample :
    10 ≤ sampleR.length ∧ 0 < listStdDev sampleR ∧ (90 : ℝ) < 100 ∧
    ¬ |zScoreOf sampleR 90| ≤ |zScoreOf sampleR 100| := by
  refine ⟨by rw [sample_length], sample_stdDev_pos, by norm_num, ?_⟩
  rw [sample_z, sample_z,
    show ((90 : ℝ) - 100) / 4 = -(5 / 2) by norm_num,
    show ((100 : ℝ) - 100) / 4 = 0 by norm_num,
    abs_neg, abs_of_nonneg (by norm_num : (0 : ℝ) ≤ 5 / 2), abs_zero]
  norm_num

/-- Claim C7 (amended): for a fixed historical sample of at least 10
transactions with positive standard deviation, `|zScore|` is monotonically
increasing in the incoming amount's distance from the sample mean: if
`|a1 - mean| <= |a2 - mean|` then `|zScore(a1)| <= |zScore(a2)|` (in
particular it is increasing in the amount on amounts at or above the
mean). -/
theorem zscore_abs_monotone_in_distance (recent : List ℝ) (a1 a2 : ℝ)
    (h10 : 10 ≤ recent.length) (hs : 0 < listStdDev recent)
    (h : |a1 - listMean recent| ≤ |a2 - listMean recent|) :
    |zScoreOf recent a1| ≤ |zScoreOf recent a2| := by
  rw [zScoreOf, if_pos hs, zScoreOf, if_pos hs, abs_div, abs_div,
    abs_of_pos hs]
  exact (div_le_div_iff_of_pos_right hs).mpr h

/-- Witness for the amended C7: on the concrete sample, 104 is closer to the
mean 100 than 112, and its absolute z-score is accordingly no larger. -/
theorem zscore_abs_monotone_in_distance_witness :
    |zScoreOf sampleR 104| ≤ |zScoreOf sampleR 112| :=
  zscore_abs_monotone_in_distance sampleR 104 112 (by rw [sample_length])
    sample_stdDev_pos
    (by
      rw [sample_mean, show ((104 : ℝ) - 100) = 4 by norm_num,
        show ((112 : ℝ) - 100) = 12 by norm_num,
        abs_of_nonneg (by norm_num : (0 : ℝ) ≤ 4),
        abs_of_nonneg (by norm_num : (0 : ℝ) ≤ 12)]
      norm_num)

/-! ## Claim C8 -/

theorem abs_z_110 : |zScoreOf sampleR 110| = 5 / 2 := by
  rw [sample_z, show ((110 : ℝ) - 100) / 4 = 5 / 2 by norm_num,
    abs_of_nonneg (by norm_num : (0 : ℝ) ≤ 5 / 2)]

theorem jsToFixed_z110 : jsToFixed 1 |zScoreOf sampleR 110| = "2.5" := by
  rw [abs_z_110, jsToFixed_intScaled 1 (5 / 2 : ℝ) 25 (by norm_num)]
  rfl

theorem jsToFixed_sampleMean : jsToFixed 2 (listMean sampleR) = "100.00" := by
  rw [sample_mean, jsToFixed_intScaled 2 (100 : ℝ) 10000 (by norm_num)]
  rfl

theorem jsNum_110 : jsNumToString (110 : ℝ) = "110" := by
  rw [show (110 : ℝ) = ((110 : ℤ) : ℝ) by norm_num, jsNumToString_intCast]
  rfl

theorem detectAnomaly_sample_110 :
    detectAnomaly sampleR 110 "transport" =
      { isAnomaly := true, severity := Severity.medium,
        reason :=
          "Transaction amount (₹110) is significantly higher than usual for transport" } := by
  have hlen : ¬ sampleR.length < 10 := by rw [sample_length]; norm_num
  have h3 : ¬ 3 < |zScoreOf sampleR 110| := by rw [abs_z_110]; norm_num
  have h2 : 2 < |zScoreOf sampleR 110| := by rw [abs_z_110]; norm_num
  simp only [detectAnomaly, if_neg hlen, if_neg h3, if_pos h2]
  rw [jsNum_110]
  rfl

/-- Counterexample to C8 as stated: on the concrete sample, the amount 110
produces an anomalous result of medium severity whose reason string
contains neither the z-score rendered to one decimal place (2.5) nor the
sample mean, so the claimed reason contents do not hold for every anomalous
result. -/
theorem anomalyReason_counterexample :
    (detectAnomaly sampleR 110 "transport").isAnomaly = true ∧
    (detectAnomaly sampleR 110 "transport").severity = Severity.medium ∧
    strContainsSub (detectAnomaly sampleR 110 "transport").reason
      (jsToFixed 1 |zScoreOf sampleR 110|) = false ∧
    strContainsSub (detectAnomaly sampleR 110 "transport").reason
      (jsToFixed 2 (listMean sampleR)) = false := by
  rw [detectAnomaly_sample_110, jsToFixed_z110, jsToFixed_sampleMean]
  exact ⟨rfl, rfl, by decide, by decide⟩

theorem strContainsSub_of_data (s pat : String) (a b : List Char)
    (h : s.data = a ++ (pat.data ++ b)) : strContainsSub s pat = true := by
  rw [strContainsSub, h]
  exact occursIn_append _ _ _ (occursIn_here _ _)

/-- Claim C8 (amended): for every anomalous result of high severity, the
reason string contains the rendered raw transaction amount, the z-score
rendered to one decimal place, and the sample mean rendered to two decimal
places; the medium-severity reason (see the counterexample) carries the raw
amount and the category but not the statistics. -/
theorem anomalyReason_high_contains (recent : List ℝ) (amount : ℝ)
    (category : String)
    (h : (detectAnomaly recent amount category).severity = Severity.high) :
    strContainsSub (detectAnomaly recent amount category).reason
      (jsNumToString amount) = true ∧
    strContainsSub (detectAnomaly recent amount category).reason
      (jsToFixed 1 |zScoreOf recent amount|) = true ∧
    strContainsSub (detectAnomaly recent amount category).reason
      (jsToFixed 2 (listMean recent)) = true := by
  by_cases hlen : recent.length < 10
  · simp only [detectAnomaly, if_pos hlen] at h
    exact absurd h (by decide)
  · by_cases h3 : 3 < |zScoreOf recent amount|
    · simp only [detectAnomaly, if_neg hlen, if_pos h3]
      refine ⟨?_, ?_, ?_⟩
      · exact strContainsSub_of_data _ _ ("Transaction amount (₹").data
          ((") is ").data ++ (jsToFixed 1 |zScoreOf recent amount|).data ++
            (" standard deviations from average (₹").data ++
            (jsToFixed 2 (listMean recent)).data ++ (")").data)
          (by simp [String.data_append, List.append_assoc])
      · exact strContainsSub_of_data _ _
          (("Transaction amount (₹").data ++ (jsNumToString amount).data ++
            (") is ").data)
          ((" standard deviations from average (₹").data ++
            (jsToFixed 2 (listMean recent)).data ++ (")").data)
          (by simp [String.data_append, List.append_assoc])
      · exact strContainsSub_of_data _ _
          (("Transaction amount (₹").data ++ (jsNumToString amount).data ++
            (") is ").data ++ (jsToFixed 1 |zScoreOf recent amount|).data ++
            (" standard deviations from average (₹").data)
          (")").data
          (by simp [String.data_append, List.append_assoc])
    · by_cases h2 : 2 < |zScoreOf recent amount|
      · simp only [detectAnomaly, if_neg hlen, if_neg h3, if_pos h2] at h
        exact absurd h (by decide)
      · simp only [detectAnomaly, if_neg hlen, if_neg h3, if_neg h2] at h
        exact absurd h (by decide)

/-- Witness for the amended C8: the concrete high-severity result at amount
120 carries all three pieces in its reason string. -/
theorem anomalyReason_high_contains_witness :
    strContainsSub (detectAnomaly sampleR 120 "transport").reason
      (jsNumToString 120) = true ∧
    strContainsSub (detectAnomaly sampleR 120 "transport").reason
      (jsToFixed 1 |zScoreOf sampleR 120|) = true ∧
    strContainsSub (detectAnomaly sampleR 120 "transport").reason
      (jsToFixed 2 (listMean sampleR)) = true :=
  anomalyReason_high_contains sampleR 120 "transport" (by
    have hlen : ¬ sampleR.length < 10 := by rw [sample_length]; norm_num
    have h3 : 3 < |zScoreOf sampleR 120| := by
      rw [sample_z, show ((120 : ℝ) - 100) / 4 = 5 by norm_num,
        abs_of_nonneg (by norm_num : (0 : ℝ) ≤ 5)]
      norm_num
    simp only [detectAnomaly, if_neg hlen, if_pos h3])

/-! ## Claim C9 -/

theorem cbFailTimes_closed (cfg : CBConfig) (k : ℕ)
    (h : k < cfg.failureThreshold) :
    cbFailTimes cfg 0 cbInitial k =
      { state := CBState.Closed, consecutiveFailures := k,
        openedAt := 0 } := by
  induction k with
  | zero => rfl
  | succ n ih =>
      have hn : n < cfg.failureThreshold := by omega
      simp only [cbFailTimes, ih hn, cbCall, cbBeforeCall, cbAfterCall]
      rw [if_neg (by omega : ¬ cfg.failureThreshold ≤ n + 1)]

theorem cbFailTimes_opens (cfg : CBConfig) (ht : 0 < cfg.failureThreshold) :
    cbFailTimes cfg 0 cbInitial cfg.failureThreshold =
      { state := CBState.Open,
        consecutiveFailures := cfg.failureThreshold, openedAt := 0 } := by
  obtain ⟨m, hm⟩ : ∃ m, cfg.failureThreshold = m + 1 :=
    ⟨cfg.failureThreshold - 1, by omega⟩
  rw [hm]
  simp only [cbFailTimes, cbFailTimes_closed cfg m (by omega), cbCall,
    cbBeforeCall, cbAfterCall]
  rw [if_pos (by omega : cfg.failureThreshold ≤ m + 1)]

/-- Claim C9 (spec-modelled): for every service key with failure threshold
`t > 0` and recovery timeout `r`, after exactly `t` consecutive failures
(fewer failures leave the breaker closed with the exact failure count) the
breaker is open, and a call before `r` has elapsed returns
`CircuitOpenError` without invoking the dependency and without changing the
state; once `r` has elapsed since opening, the next call is admitted in
`HALF_OPEN`, a success there closes the breaker and resets the
consecutive-failure counter to 0, and a failure there reopens the breaker
with the timeout restarted at the instant of the failed trial. -/
theorem circuitBreaker_lifecycle (cfg : CBConfig)
    (ht : 0 < cfg.failureThreshold) :
    (∀ k, k < cfg.failureThreshold →
      (cbFailTimes cfg 0 cbInitial k).state = CBState.Closed ∧
      (cbFailTimes cfg 0 cbInitial k).consecutiveFailures = k) ∧
    (cbFailTimes cfg 0 cbInitial cfg.failureThreshold).state =
      CBState.Open ∧
    (∀ u dep, u < cfg.recoveryTimeout →
      cbCall cfg u (cbFailTimes cfg 0 cbInitial cfg.failureThreshold) dep =
        (CallResult.circuitOpenError,
         cbFailTimes cfg 0 cbInitial cfg.failureThreshold)) ∧
    (∀ u, cfg.recoveryTimeout ≤ u →
      cbBeforeCall cfg u (cbFailTimes cfg 0 cbInitial cfg.failureThreshold) =
        some { state := CBState.HalfOpen,
               consecutiveFailures := cfg.failureThreshold,
               openedAt := 0 } ∧
      cbCall cfg u (cbFailTimes cfg 0 cbInitial cfg.failureThreshold)
          CallOutcome.success =
        (CallResult.invoked CallOutcome.success,
         { state := CBState.Closed, consecutiveFailures := 0,
           openedAt := 0 }) ∧
      cbCall cfg u (cbFailTimes cfg 0 cbInitial cfg.failureThreshold)
          CallOutcome.failure =
        (CallResult.invoked CallOutcome.failure,
         { state := CBState.Open,
           consecutiveFailures := cfg.failureThreshold,
           openedAt := u })) := by
  have hopen := cbFailTimes_opens cfg ht
  refine ⟨?_, ?_, ?_, ?_⟩
  · intro k hk
    rw [cbFailTimes_closed cfg k hk]
    exact ⟨rfl, rfl⟩
  · rw [hopen]
  · intro u dep hu
    rw [hopen]
    simp only [cbCall, cbBeforeCall]
    rw [if_neg (by omega : ¬ cfg.recoveryTimeout ≤ u - 0)]
  · intro u hu
    rw [hopen]
    refine ⟨?_, ?_, ?_⟩
    · simp only [cbBeforeCall]
      rw [if_pos (by omega : cfg.recoveryTimeout ≤ u - 0)]
    · simp only [cbCall, cbBeforeCall]
      rw [if_pos (by omega : cfg.recoveryTimeout ≤ u - 0)]
      simp only [cbAfterCall]
    · simp only [cbCall, cbBeforeCall]
      rw [if_pos (by omega : cfg.recoveryTimeout ≤ u - 0)]
      simp only [cbAfterCall]

/-- Witness for C9: with the OCR configuration (threshold 3, timeout 60),
two failures leave the breaker closed, the third opens it, a call at
instant 30 is rejected with `CircuitOpenError`, and a successful call at
instant 60 closes the breaker with the counter reset. -/
theorem circuitBreaker_lifecycle_witness :
    (cbFailTimes { failureThreshold := 3, recoveryTimeout := 60 } 0
      cbInitial 2).state = CBState.Closed ∧
    (cbFailTimes { failureThreshold := 3, recoveryTimeout := 60 } 0
      cbInitial 3).state = CBState.Open ∧
    cbCall { failureThreshold := 3, recoveryTimeout := 60 } 30
        (cbFailTimes { failureThreshold := 3, recoveryTimeout := 60 } 0
          cbInitial 3) CallOutcome.success =
      (CallResult.circuitOpenError,
       cbFailTimes { failureThreshold := 3, recoveryTimeout := 60 } 0
         cbInitial 3) ∧
    cbCall { failureThreshold := 3, recoveryTimeout := 60 } 60
        (cbFailTimes { failureThreshold := 3, recoveryTimeout := 60 } 0
          cbInitial 3) CallOutcome.success =
      (CallResult.invoked CallOutcome.success,
       { state := CBState.Closed, consecutiveFailures := 0,
         openedAt := 0 }) := by
  have h := circuitBreaker_lifecycle
    { failureThreshold := 3, recoveryTimeout := 60 } (by decide)
  exact ⟨(h.1 2 (by decide)).1, h.2.1,
    h.2.2.1 30 CallOutcome.success (by decide),
    (h.2.2.2 60 (by decide)).2.1⟩

/-! ## Claim C10 -/

/-- Claim C10: for every processed transaction event, anomaly listeners
receive the computed result only when its `isAnomaly` flag is true — in
particular the insufficient-data result is never dispatched — and
budget-alert listeners receive the budget evaluation only when it is
non-null. -/
theorem dispatch_only_positive_results (recent : List ℝ) (amount : ℝ)
    (category : String) (nowIso : String)
    (budget : Option (List (String × ℚ))) (txs : List Tx) (t : Tx) :
    ((detectAnomaly recent amount category).isAnomaly = false →
      emittedAnomalies (detectAnomaly recent amount category) = []) ∧
    (recent.length < 10 →
      emittedAnomalies (detectAnomaly recent amount category) = []) ∧
    (∀ a ∈ emittedAnomalies (detectAnomaly recent amount category),
      a.isAnomaly = true) ∧
    (checkBudgetStatus nowIso budget txs t = none →
      emittedBudgetAlerts (checkBudgetStatus nowIso budget txs t) = []) ∧
    (∀ alert ∈ emittedBudgetAlerts (checkBudgetStatus nowIso budget txs t),
      checkBudgetStatus nowIso budget txs t = some alert) := by
  refine ⟨?_, ?_, ?_, ?_, ?_⟩
  · intro h
    simp [emittedAnomalies, h]
  · intro h
    have hf : (detectAnomaly recent amount category).isAnomaly = false := by
      simp only [detectAnomaly, if_pos h]
    simp [emittedAnomalies, hf]
  · intro a ha
    by_cases hb : (detectAnomaly recent amount category).isAnomaly = true
    · simp only [emittedAnomalies, if_pos hb, List.mem_singleton] at ha
      rw [ha]
      exact hb
    · have hf : (detectAnomaly recent amount category).isAnomaly = false := by
        simpa using hb
      simp [emittedAnomalies, hf] at ha
  · intro h
    rw [h]
    rfl
  · intro alert ha
    cases hc : checkBudgetStatus nowIso budget txs t with
    | none =>
        rw [hc] at ha
        simp [emittedBudgetAlerts] at ha
    | some b =>
        rw [hc] at ha
        simp only [emittedBudgetAlerts, List.mem_singleton] at ha
        rw [ha]

/-- Witness for C10: the insufficient-data result of three samples is not
dispatched to anomaly listeners, and a missing active budget dispatches no
budget alert. -/
theorem dispatch_only_positive_results_witness :
    emittedAnomalies (detectAnomaly [5, 5, 5] 1000000 "misc") = [] ∧
    emittedBudgetAlerts (checkBudgetStatus "2025-03-15T00:00:00.000Z" none
      [] txMar50) = [] := by
  have h := dispatch_only_positive_results [5, 5, 5] 1000000 "misc"
    "2025-03-15T00:00:00.000Z" none [] txMar50
  exact ⟨h.2.1 (by simp), h.2.2.2.1 rfl⟩
